import Mathlib

/-!
# Verification of the ndppd packet engine (src/iface.c)

Shallow embedding of the frame-construction, checksum, receive-dispatch and
interface-flag code of src/iface.c, together with theorems settling the
specification claims about it.

Conventions:
- Machine bytes are modelled as `Nat` values below 256; buffers are `List Nat`
  in memory order.  Multi-byte on-wire quantities are handled at byte level,
  which makes the embedding independent of host endianness: `htons`/`htonl`
  stores are modelled by emitting big-endian byte lists, and 16-bit loads by
  `decode16` (big-endian).
- IPv6 addresses are 16-byte lists, link-layer (MAC) addresses 6-byte lists.
- Out-of-bounds reads of C pointers into the receive buffer are modelled with
  `List.getD _ _ 0`, which corresponds to reading the zero-filled remainder of
  the bounded receive buffer.
-/

/-- Big-endian decoding of two bytes into a 16-bit value, the byte-level view
of reading a `uint16_t` field out of a frame. -/
def decode16 (hi lo : Nat) : Nat := hi * 256 + lo

/-- Big-endian encoding of a 32-bit value into four bytes, the byte-level view
of `htonl` followed by a 4-byte store. -/
def encode32 (n : Nat) : List Nat :=
  [n / 2 ^ 24 % 256, n / 2 ^ 16 % 256, n / 256 % 256, n % 256]

/-- Embedding of ndL_calculate_checksum (src/iface.c lines 128-146): one-pass
ones-complement accumulation over a byte buffer read as big-endian 16-bit
words (`ntohs`), with a trailing odd byte added as-is, reducing the sum below
0x10000 after every addition exactly as the C loop does. -/
def ndL_calculate_checksum : Nat → List Nat → Nat
  | sum, [] => sum
  | sum, [b] =>
      let s := sum + b
      if s > 0xffff then s - 0xffff else s
  | sum, b1 :: b2 :: rest =>
      let s := sum + (b1 * 256 + b2)
      ndL_calculate_checksum (if s > 0xffff then s - 0xffff else s) rest

/-- Zero the checksum field (bytes 2 and 3) of an ICMPv6 header byte list,
the embedding of `hdr.icmp6_hdr.icmp6_cksum = 0` on the packed copy. -/
def zeroCksum : List Nat → List Nat
  | b0 :: b1 :: _ :: _ :: rest => b0 :: b1 :: 0 :: 0 :: rest
  | l => l

/-- Store checksum value `c` into the checksum field (bytes 2 and 3) of an
ICMPv6 message byte list, the embedding of the big-endian effect of
`icmp6_hdr->icmp6_cksum = htons(~sum)`. -/
def setCksum (c : Nat) : List Nat → List Nat
  | b0 :: b1 :: _ :: _ :: rest => b0 :: b1 :: c / 256 :: c % 256 :: rest
  | l => l

/-- Embedding of ndL_calculate_icmp6_checksum (src/iface.c lines 148-172):
checksums the RFC 2460 pseudo-header (source, destination, 32-bit length,
three zero bytes, next-header 58) followed by the ICMPv6 header with its
checksum field zeroed, then the rest of the ICMPv6 message, and returns the
host value of `htons(~sum)`, i.e. `0xffff - sum`.  `ih` is the 8 header bytes
and `payload` the message bytes after them. -/
def ndL_calculate_icmp6_checksum (src dst : List Nat) (size : Nat)
    (ih : List Nat) (payload : List Nat) : Nat :=
  let sum1 := ndL_calculate_checksum 0xffff
    (src ++ dst ++ encode32 size ++ [0, 0, 0, 58] ++ zeroCksum ih)
  let sum2 := ndL_calculate_checksum sum1 payload
  0xffff - sum2

/-- An Ethernet + IPv6 frame as manipulated by the send path: the Ethernet
header fields, the IPv6 header fields, and the bytes following the IPv6
header (`body`).  `ip6_flow` is the host value of the first 32-bit word of
the IPv6 header; `ip6_plen` the host value of the payload-length field. -/
structure Msg where
  eth_dst : List Nat
  eth_src : List Nat
  eth_type : Nat
  ip6_flow : Nat
  ip6_plen : Nat
  ip6_nxt : Nat
  ip6_hops : Nat
  ip6_src : List Nat
  ip6_dst : List Nat
  body : List Nat
deriving DecidableEq, Repr

/-- Embedding of ndL_send_icmp6 (src/iface.c lines 518-543): overwrites the
Ethernet header (type IPv6 = 0x86dd, source = interface MAC, destination =
`hwaddr`), fills `ip6_flow` with version 6 / traffic class 0 / flow label 0,
`ip6_plen` with `size` minus the 54 bytes of Ethernet + IPv6 headers
(truncated to 16 bits as the `uint16_t` store does), hop limit 255, next
header ICMPv6 = 58, and stores the computed ICMPv6 checksum into the message;
everything else is passed through.  The returned `Msg` is the frame handed to
the kernel for transmission. -/
def ndL_send_icmp6 (lladdr hwaddr : List Nat) (msg : Msg) (size : Nat) : Msg :=
  let icmp6_len := size - 54
  let c := ndL_calculate_icmp6_checksum msg.ip6_src msg.ip6_dst icmp6_len
    (msg.body.take 8) ((msg.body.drop 8).take (icmp6_len - 8))
  { msg with
    eth_type := 0x86dd
    eth_src := lladdr
    eth_dst := hwaddr
    ip6_flow := 0x60000000
    ip6_plen := (size - 54) % 65536
    ip6_hops := 255
    ip6_nxt := 58
    body := setCksum c msg.body }

/-- Modelled from the spec: nd_addr_is_multicast lives in addr.c, which is not
part of the sources; per the spec's address-utility component an IPv6 address
is multicast exactly when its first byte is 0xff. -/
def nd_addr_is_multicast (a : List Nat) : Bool := a.getD 0 0 = 0xff

/-- Modelled from the spec: nd_addr_is_unspecified lives in addr.c, which is
not part of the sources; the unspecified address `::` is the all-zero
address. -/
def nd_addr_is_unspecified (a : List Nat) : Bool := a.all (· = 0)

/-- Embedding of nd_iface_send_na (src/iface.c lines 545-578): builds the NA
message (ICMPv6 type 136, flags byte with SOLICITED = 0x40 set when the
destination is multicast and ROUTER = 0x80 set when `router`, target address,
target link-layer option type 2 length 1 with the interface MAC) with source
address = target, destination = `dst`, and sends it through ndL_send_icmp6
with size 86 and Ethernet destination `dst_ll`.  The flags byte is byte 4 of
the ICMPv6 message, the wire position of the high byte of
`nd_na_flags_reserved`. -/
def nd_iface_send_na (lladdr dst dst_ll tgt : List Nat) (router : Bool) : Msg :=
  let flags := (if nd_addr_is_multicast dst then 0x40 else 0) +
    (if router then 0x80 else 0)
  let msg : Msg :=
    { eth_dst := List.replicate 6 0
      eth_src := List.replicate 6 0
      eth_type := 0
      ip6_flow := 0
      ip6_plen := 0
      ip6_nxt := 0
      ip6_hops := 0
      ip6_src := tgt
      ip6_dst := dst
      body := [136, 0, 0, 0, flags, 0, 0, 0] ++ tgt ++ [2, 1] ++ lladdr }
  ndL_send_icmp6 lladdr dst_ll msg 86

/-- Embedding of ndL_get_local_addr (src/iface.c lines 504-516): overwrites
bytes 0, 1 and 8-15 of `addr` with the modified EUI-64 link-local address of
the interface MAC; the other bytes of `addr` are left untouched (the caller
passes a zero-initialized struct). -/
def ndL_get_local_addr (lladdr : List Nat) (addr : List Nat) : List Nat :=
  ((((((((((addr.set 0 0xfe).set 1 0x80).set 8
    (Nat.xor (lladdr.getD 0 0) 0x02)).set 9 (lladdr.getD 1 0)).set 10
    (lladdr.getD 2 0)).set 11 0xff).set 12 0xfe).set 13
    (lladdr.getD 3 0)).set 14 (lladdr.getD 4 0)).set 15 (lladdr.getD 5 0))

/-- Embedding of nd_iface_send_ns (src/iface.c lines 580-611): builds the NS
message (ICMPv6 type 135, target, source link-layer option type 1 length 1
with the interface MAC), source address from ndL_get_local_addr on the
zero-initialized header, IPv6 destination ff02::1:ff00:0 with bytes 13-15
replaced by the target's bytes 13-15, and Ethernet destination 33:33 followed
by the four bytes `tgt->s6_addr32[3]`, i.e. bytes 12-15 of the target. -/
def nd_iface_send_ns (lladdr tgt : List Nat) : Msg :=
  let dst0 : List Nat := [0xff, 0x02, 0, 0, 0, 0, 0, 0, 0, 0, 0, 0x01, 0xff, 0, 0, 0]
  let dst := ((dst0.set 13 (tgt.getD 13 0)).set 14 (tgt.getD 14 0)).set 15
    (tgt.getD 15 0)
  let ll_mcast : List Nat := [0x33, 0x33, tgt.getD 12 0, tgt.getD 13 0,
    tgt.getD 14 0, tgt.getD 15 0]
  let msg : Msg :=
    { eth_dst := List.replicate 6 0
      eth_src := List.replicate 6 0
      eth_type := 0
      ip6_flow := 0
      ip6_plen := 0
      ip6_nxt := 0
      ip6_hops := 0
      ip6_src := ndL_get_local_addr lladdr (List.replicate 16 0)
      ip6_dst := dst
      body := [135, 0, 0, 0, 0, 0, 0, 0] ++ tgt ++ [1, 1] ++ lladdr }
  ndL_send_icmp6 lladdr ll_mcast msg 86

/-- Result of the receive-side dispatch in ndL_handle_msg: either the frame is
dropped before any handler runs, or ndL_handle_ns / ndL_handle_na is invoked
with the ICMPv6 message found at byte offset `off` past the IPv6 header and
length `ilen`. -/
inductive Dispatch where
  | drop
  | ns (off ilen : Nat)
  | na (off ilen : Nat)
deriving DecidableEq, Repr

/-- Embedding of the hop-by-hop skipping loop of ndL_handle_msg (src/iface.c
lines 181-195): starting at byte offset `i` past the IPv6 header, reads the
option header (next-header byte, length byte), drops the frame (`none`) if
fewer than `8 + 8 * len` bytes of payload remain or if a next header other
than hop-by-hop (0) or ICMPv6 (58) appears, and otherwise returns the offset
just past the chain once the next header is ICMPv6. -/
def ndL_skip_hbh (plen : Nat) (buf : List Nat) (i : Nat) : Option Nat :=
  let hbh_nxt := buf.getD i 0
  let hbh_len := buf.getD (i + 1) 0
  if plen - i < 8 ∨ plen - i < 8 + hbh_len * 8 then none
  else if hbh_nxt = 58 then some (i + 8 + 8 * hbh_len)
  else if hbh_nxt = 0 then ndL_skip_hbh plen buf (i + 8 + 8 * hbh_len)
  else none
termination_by plen - i
decreasing_by
  simp_wf
  omega

/-- The next-header dispatch of ndL_handle_msg (src/iface.c lines 179-198):
for hop-by-hop (0) the option chain is traversed, for ICMPv6 (58) the message
starts at offset 0, and any other next header drops the frame. -/
def ndL_locate_icmp6 (nxt plen : Nat) (buf : List Nat) : Option Nat :=
  if nxt = 0 then ndL_skip_hbh plen buf 0
  else if nxt = 58 then some 0
  else none

/-- The checksum comparison of ndL_handle_msg (src/iface.c line 207): reads
the 8 ICMPv6 header bytes at byte offset `off` of `buf`, recomputes the
checksum over the pseudo-header and the `ilen - 8` payload bytes after the
header, and compares it with the stored checksum field. -/
def ndL_verify_checksum (src dst : List Nat) (buf : List Nat) (off ilen : Nat) : Bool :=
  let ih := (buf.drop off).take 8
  let payload := ((buf.drop off).drop 8).take (ilen - 8)
  ndL_calculate_icmp6_checksum src dst ilen ih payload =
    decode16 (ih.getD 2 0) (ih.getD 3 0)

/-- Embedding of ndL_handle_msg (src/iface.c lines 174-216) for a frame with
IPv6 source `src`, destination `dst`, next header `nxt`, payload length
`plen` and receive-buffer contents `buf` after the IPv6 header.  After
locating the ICMPv6 message at chain offset `i`, the code computes the
header pointer as `(struct icmp6_hdr *)(msg + 1) + i` -- pointer arithmetic
in units of the 8-byte icmp6_hdr, so the bytes actually read live at byte
offset `8 * i`, while the length `ilen = plen - i` is taken from the chain
offset. -/
def ndL_handle_msg (src dst : List Nat) (nxt plen : Nat) (buf : List Nat) : Dispatch :=
  match ndL_locate_icmp6 nxt plen buf with
  | none => Dispatch.drop
  | some i =>
    if plen - i < 8 then Dispatch.drop
    else if ndL_verify_checksum src dst buf (8 * i) (plen - i) = false then Dispatch.drop
    else
      let t := buf.getD (8 * i) 0
      if t = 135 then Dispatch.ns (8 * i) (plen - i)
      else if t = 136 then Dispatch.na (8 * i) (plen - i)
      else Dispatch.drop

/-- Reading of ndL_handle_msg that follows the spec's words for claim C6: the
ICMPv6 header is located immediately after the option chain, at byte offset
`i` past the IPv6 header.  Identical to `ndL_handle_msg` except that the
header bytes are read at offset `i` instead of `8 * i`.  Used only to compare
the code against the claim. -/
def ndL_handle_msg_claimed (src dst : List Nat) (nxt plen : Nat) (buf : List Nat) : Dispatch :=
  match ndL_locate_icmp6 nxt plen buf with
  | none => Dispatch.drop
  | some i =>
    if plen - i < 8 then Dispatch.drop
    else if ndL_verify_checksum src dst buf i (plen - i) = false then Dispatch.drop
    else
      let t := buf.getD i 0
      if t = 135 then Dispatch.ns i (plen - i)
      else if t = 136 then Dispatch.na i (plen - i)
      else Dispatch.drop

/-- Result of ndL_handle_ns: either the frame is dropped, or
nd_proxy_handle_ns is invoked with the solicitation's source, destination and
target addresses and the optional source link-layer address. -/
inductive NsAction where
  | drop
  | forward (src dst target : List Nat) (src_ll : Option (List Nat))
deriving DecidableEq, Repr

/-- Embedding of ndL_handle_ns (src/iface.c lines 76-108): `proxy` tells
whether the receiving interface has a bound proxy, `src`/`dst` are the IPv6
header addresses, `body` the ICMPv6 message bytes and `len` its length.
The target sits at bytes 8-23 of the neighbor-solicit message; for a
non-unspecified source the first option header at bytes 24-25 must be a
source link-layer option (type 1, length 1) with the MAC at bytes 26-31. -/
def ndL_handle_ns (proxy : Bool) (src dst : List Nat) (body : List Nat)
    (len : Nat) : NsAction :=
  if proxy = false then NsAction.drop
  else if len < 24 then NsAction.drop
  else if nd_addr_is_unspecified src then
    NsAction.forward src dst ((body.drop 8).take 16) none
  else if len - 24 < 8 then NsAction.drop
  else if body.getD 25 0 ≠ 1 ∨ body.getD 24 0 ≠ 1 then NsAction.drop
  else NsAction.forward src dst ((body.drop 8).take 16)
    (some ((body.drop 26).take 6))

/-- The kernel's per-interface flag word, restricted to the two bits the
daemon touches (IFF_ALLMULTI and IFF_PROMISC), as read and written through
SIOCGIFFLAGS / SIOCSIFFLAGS. -/
structure KernelFlags where
  allmulti : Bool
  promisc : Bool
deriving DecidableEq, Repr

/-- The saved-flag fields of nd_iface_t: `old_allmulti` and `old_promisc`,
ints initialized to the sentinel -1 by nd_iface_open and set to 0 or 1 the
first time the corresponding flag is touched. -/
structure IfaceFlags where
  old_allmulti : Int
  old_promisc : Int
deriving DecidableEq, Repr

/-- Joint state of one interface's saved flags and the kernel's current
flags, the state read and written by nd_iface_set_allmulti,
nd_iface_set_promisc and nd_iface_close. -/
abbrev IfaceSt := IfaceFlags × KernelFlags

/-- The int value stored by `iface->old_allmulti = (flags & IFF_ALLMULTI) != 0`. -/
def boolToInt (b : Bool) : Int := if b then 1 else 0

/-- Embedding of nd_iface_set_allmulti (src/iface.c lines 633-665): reads the
current kernel flags, records the current ALLMULTI bit into `old_allmulti`
if that field still holds the sentinel -1, and writes the flag back only if
it differs from `b` (the ioctls are modelled as always succeeding). -/
def nd_iface_set_allmulti (st : IfaceSt) (b : Bool) : IfaceSt :=
  let cur := st.2.allmulti
  let ifc := if st.1.old_allmulti < 0 then
    { st.1 with old_allmulti := boolToInt cur } else st.1
  if b = cur then (ifc, st.2) else (ifc, { st.2 with allmulti := b })

/-- Embedding of nd_iface_set_promisc (src/iface.c lines 667-699), the
PROMISC analogue of nd_iface_set_allmulti. -/
def nd_iface_set_promisc (st : IfaceSt) (b : Bool) : IfaceSt :=
  let cur := st.2.promisc
  let ifc := if st.1.old_promisc < 0 then
    { st.1 with old_promisc := boolToInt cur } else st.1
  if b = cur then (ifc, st.2) else (ifc, { st.2 with promisc := b })

/-- Embedding of nd_iface_close (src/iface.c lines 481-502) restricted to its
flag effects: decrements the reference count and, on reaching zero with the
no-restore override inactive, calls nd_iface_set_promisc with the saved
promisc value and then nd_iface_set_allmulti with the saved allmulti value,
skipping each whose saved value is still the -1 sentinel.  The int-to-bool
conversion of `nd_iface_set_promisc(iface, iface->old_promisc)` maps any
nonzero int to true. -/
def nd_iface_close (no_restore : Bool) (refcount : Nat) (st : IfaceSt) :
    Nat × IfaceSt :=
  if refcount - 1 > 0 then (refcount - 1, st)
  else if no_restore then (0, st)
  else
    let st1 := if 0 ≤ st.1.old_promisc then
      nd_iface_set_promisc st (st.1.old_promisc ≠ 0) else st
    let st2 := if 0 ≤ st1.1.old_allmulti then
      nd_iface_set_allmulti st1 (st1.1.old_allmulti ≠ 0) else st1
    (0, st2)

/-- The saved-flag fields as initialized by nd_iface_open (src/iface.c lines
458-463): both sentinels -1. -/
def freshIfaceFlags : IfaceFlags := { old_allmulti := -1, old_promisc := -1 }

/-- One daemon call to nd_iface_set_allmulti or nd_iface_set_promisc. -/
inductive FlagOp where
  | allmulti (b : Bool)
  | promisc (b : Bool)
deriving DecidableEq, Repr

/-- Run a sequence of flag-set calls against an interface/kernel state. -/
def ndL_run_flag_ops : List FlagOp → IfaceSt → IfaceSt
  | [], st => st
  | FlagOp.allmulti b :: rest, st => ndL_run_flag_ops rest (nd_iface_set_allmulti st b)
  | FlagOp.promisc b :: rest, st => ndL_run_flag_ops rest (nd_iface_set_promisc st b)

/-- Field computation for nd_iface_set_allmulti: the saved flag is recorded
from the kernel's current value only while it still holds the sentinel. -/
theorem set_allmulti_old (st : IfaceSt) (b : Bool) :
    (nd_iface_set_allmulti st b).1.old_allmulti =
      if st.1.old_allmulti < 0 then boolToInt st.2.allmulti else st.1.old_allmulti := by
  unfold nd_iface_set_allmulti
  dsimp only
  split_ifs <;> rfl

/-- nd_iface_set_allmulti does not touch the saved promisc value. -/
theorem set_allmulti_old_promisc (st : IfaceSt) (b : Bool) :
    (nd_iface_set_allmulti st b).1.old_promisc = st.1.old_promisc := by
  unfold nd_iface_set_allmulti
  dsimp only
  split_ifs <;> rfl

/-- After nd_iface_set_allmulti the kernel ALLMULTI flag equals the requested
value (it is written only when differing, but then already equal). -/
theorem set_allmulti_kern (st : IfaceSt) (b : Bool) :
    (nd_iface_set_allmulti st b).2.allmulti = b := by
  unfold nd_iface_set_allmulti
  dsimp only
  split_ifs <;> simp_all

/-- nd_iface_set_allmulti does not touch the kernel PROMISC flag. -/
theorem set_allmulti_kern_promisc (st : IfaceSt) (b : Bool) :
    (nd_iface_set_allmulti st b).2.promisc = st.2.promisc := by
  unfold nd_iface_set_allmulti
  dsimp only
  split_ifs <;> rfl

/-- Field computation for nd_iface_set_promisc: the saved flag is recorded
from the kernel's current value only while it still holds the sentinel. -/
theorem set_promisc_old (st : IfaceSt) (b : Bool) :
    (nd_iface_set_promisc st b).1.old_promisc =
      if st.1.old_promisc < 0 then boolToInt st.2.promisc else st.1.old_promisc := by
  unfold nd_iface_set_promisc
  dsimp only
  split_ifs <;> rfl

/-- nd_iface_set_promisc does not touch the saved allmulti value. -/
theorem set_promisc_old_allmulti (st : IfaceSt) (b : Bool) :
    (nd_iface_set_promisc st b).1.old_allmulti = st.1.old_allmulti := by
  unfold nd_iface_set_promisc
  dsimp only
  split_ifs <;> rfl

/-- After nd_iface_set_promisc the kernel PROMISC flag equals the requested
value. -/
theorem set_promisc_kern (st : IfaceSt) (b : Bool) :
    (nd_iface_set_promisc st b).2.promisc = b := by
  unfold nd_iface_set_promisc
  dsimp only
  split_ifs <;> simp_all

/-- nd_iface_set_promisc does not touch the kernel ALLMULTI flag. -/
theorem set_promisc_kern_allmulti (st : IfaceSt) (b : Bool) :
    (nd_iface_set_promisc st b).2.allmulti = st.2.allmulti := by
  unfold nd_iface_set_promisc
  dsimp only
  split_ifs <;> rfl

/-- Invariant tying the saved ALLMULTI value to the kernel state before the
daemon's first touch: either it is still the sentinel and the kernel flag is
unchanged, or it records the original flag value. -/
def FlagsInvA (k0 : KernelFlags) (st : IfaceSt) : Prop :=
  (st.1.old_allmulti = -1 ∧ st.2.allmulti = k0.allmulti) ∨
    st.1.old_allmulti = boolToInt k0.allmulti

/-- Invariant tying the saved PROMISC value to the kernel state before the
daemon's first touch. -/
def FlagsInvP (k0 : KernelFlags) (st : IfaceSt) : Prop :=
  (st.1.old_promisc = -1 ∧ st.2.promisc = k0.promisc) ∨
    st.1.old_promisc = boolToInt k0.promisc

/-- nd_iface_set_allmulti preserves the ALLMULTI-saving invariant: the first
call records the original flag, later calls leave the record alone. -/
theorem flagsInvA_set_allmulti (k0 : KernelFlags) (st : IfaceSt) (b : Bool)
    (h : FlagsInvA k0 st) : FlagsInvA k0 (nd_iface_set_allmulti st b) := by
  rcases h with ⟨h1, h2⟩ | h1
  · right
    rw [set_allmulti_old, h1, h2]
    norm_num
  · right
    rw [set_allmulti_old, h1]
    cases k0.allmulti <;> simp [boolToInt]

/-- nd_iface_set_promisc preserves the ALLMULTI-saving invariant. -/
theorem flagsInvA_set_promisc (k0 : KernelFlags) (st : IfaceSt) (b : Bool)
    (h : FlagsInvA k0 st) : FlagsInvA k0 (nd_iface_set_promisc st b) := by
  unfold FlagsInvA at h ⊢
  rw [set_promisc_old_allmulti, set_promisc_kern_allmulti]
  exact h

/-- nd_iface_set_promisc preserves the PROMISC-saving invariant. -/
theorem flagsInvP_set_promisc (k0 : KernelFlags) (st : IfaceSt) (b : Bool)
    (h : FlagsInvP k0 st) : FlagsInvP k0 (nd_iface_set_promisc st b) := by
  rcases h with ⟨h1, h2⟩ | h1
  · right
    rw [set_promisc_old, h1, h2]
    norm_num
  · right
    rw [set_promisc_old, h1]
    cases k0.promisc <;> simp [boolToInt]

/-- nd_iface_set_allmulti preserves the PROMISC-saving invariant. -/
theorem flagsInvP_set_allmulti (k0 : KernelFlags) (st : IfaceSt) (b : Bool)
    (h : FlagsInvP k0 st) : FlagsInvP k0 (nd_iface_set_allmulti st b) := by
  unfold FlagsInvP at h ⊢
  rw [set_allmulti_old_promisc, set_allmulti_kern_promisc]
  exact h

/-- Any sequence of flag-set calls preserves both saving invariants. -/
theorem flagsInv_run (k0 : KernelFlags) (ops : List FlagOp) (st : IfaceSt)
    (h : FlagsInvA k0 st ∧ FlagsInvP k0 st) :
    FlagsInvA k0 (ndL_run_flag_ops ops st) ∧ FlagsInvP k0 (ndL_run_flag_ops ops st) := by
  induction ops generalizing st with
  | nil => exact h
  | cons op rest ih =>
    cases op with
    | allmulti b =>
      exact ih _ ⟨flagsInvA_set_allmulti k0 st b h.1, flagsInvP_set_allmulti k0 st b h.2⟩
    | promisc b =>
      exact ih _ ⟨flagsInvA_set_promisc k0 st b h.1, flagsInvP_set_promisc k0 st b h.2⟩

/-- Two kernel flag records with equal fields are equal. -/
theorem kernelFlags_ext (a b : KernelFlags) (h1 : a.allmulti = b.allmulti)
    (h2 : a.promisc = b.promisc) : a = b := by
  cases a
  cases b
  simp_all

/-- A final nd_iface_close on a state satisfying both saving invariants
restores the kernel flags to their original values. -/
theorem close_restores (k0 : KernelFlags) (st : IfaceSt)
    (hA : FlagsInvA k0 st) (hP : FlagsInvP k0 st) :
    (nd_iface_close false 1 st).2.2 = k0 := by
  have hstep : (nd_iface_close false 1 st).2 =
      (let st1 := if 0 ≤ st.1.old_promisc then
        nd_iface_set_promisc st (decide (st.1.old_promisc ≠ 0)) else st
      if 0 ≤ st1.1.old_allmulti then
        nd_iface_set_allmulti st1 (decide (st1.1.old_allmulti ≠ 0)) else st1) := rfl
  rw [hstep]
  dsimp only
  rcases hP with ⟨hp1, hp2⟩ | hp1
  · have hn1 : ¬((0 : Int) ≤ st.1.old_promisc) := by rw [hp1]; decide
    rw [if_neg hn1]
    rcases hA with ⟨ha1, ha2⟩ | ha1
    · have hn2 : ¬((0 : Int) ≤ st.1.old_allmulti) := by rw [ha1]; decide
      rw [if_neg hn2]
      exact kernelFlags_ext _ _ ha2 hp2
    · have hge : (0 : Int) ≤ st.1.old_allmulti := by
        rw [ha1]; cases k0.allmulti <;> decide
      rw [if_pos hge]
      have hb : (decide (st.1.old_allmulti ≠ 0)) = k0.allmulti := by
        rw [ha1]; cases k0.allmulti <;> decide
      rw [hb]
      exact kernelFlags_ext _ _ (set_allmulti_kern st k0.allmulti)
        ((set_allmulti_kern_promisc st k0.allmulti).trans hp2)
  · have hge1 : (0 : Int) ≤ st.1.old_promisc := by
      rw [hp1]; cases k0.promisc <;> decide
    rw [if_pos hge1]
    have hb1 : (decide (st.1.old_promisc ≠ 0)) = k0.promisc := by
      rw [hp1]; cases k0.promisc <;> decide
    rw [hb1]
    rcases hA with ⟨ha1, ha2⟩ | ha1
    · have hn2 : ¬((0 : Int) ≤ (nd_iface_set_promisc st k0.promisc).1.old_allmulti) := by
        rw [set_promisc_old_allmulti, ha1]; decide
      rw [if_neg hn2]
      exact kernelFlags_ext _ _
        ((set_promisc_kern_allmulti st k0.promisc).trans ha2)
        (set_promisc_kern st k0.promisc)
    · have hge2 : (0 : Int) ≤ (nd_iface_set_promisc st k0.promisc).1.old_allmulti := by
        rw [set_promisc_old_allmulti, ha1]; cases k0.allmulti <;> decide
      rw [if_pos hge2]
      have hb2 : (decide ((nd_iface_set_promisc st k0.promisc).1.old_allmulti ≠ 0)) = k0.allmulti := by
        rw [set_promisc_old_allmulti, ha1]; cases k0.allmulti <;> decide
      rw [hb2]
      exact kernelFlags_ext _ _
        (set_allmulti_kern (nd_iface_set_promisc st k0.promisc) k0.allmulti)
        ((set_allmulti_kern_promisc (nd_iface_set_promisc st k0.promisc) k0.allmulti).trans
          (set_promisc_kern st k0.promisc))

/-- Sample interface MAC used for concrete instantiations. -/
def sampleMac : List Nat := [2, 3, 4, 5, 6, 7]

/-- Sample solicitor MAC used for concrete instantiations. -/
def sampleMac2 : List Nat := [0xaa, 0xbb, 0xcc, 0xdd, 0xee, 0x01]

/-- The unicast address 2001:db8::2 (first byte 0x20, so not multicast). -/
def sampleUnicastDst : List Nat :=
  [0x20, 0x01, 0x0d, 0xb8, 0, 0, 0, 0, 0, 0, 0, 0, 0, 0, 0, 2]

/-- The target address 2001:db8::1; note its byte 12 is 0, not 0xff. -/
def sampleTgt : List Nat :=
  [0x20, 0x01, 0x0d, 0xb8, 0, 0, 0, 0, 0, 0, 0, 0, 0, 0, 0, 1]

/-- Claim C1, counterexample: for the NA emitted with destination
2001:db8::2 (not multicast) and router = false, the wire flags byte has the
O bit (0x20) clear -- the claim says O is always set -- and the S bit (0x40)
clear although the reply is unicast -- the claim says S is set exactly then. -/
theorem c1_counterexample :
    nd_addr_is_multicast sampleUnicastDst = false ∧
    Nat.testBit ((nd_iface_send_na sampleMac sampleUnicastDst sampleMac2
      sampleTgt false).body.getD 4 0) 5 = false ∧
    Nat.testBit ((nd_iface_send_na sampleMac sampleUnicastDst sampleMac2
      sampleTgt false).body.getD 4 0) 6 = false := by
  refine ⟨by decide, ?_, ?_⟩ <;>
  · have hfb : (nd_iface_send_na sampleMac sampleUnicastDst sampleMac2
        sampleTgt false).body.getD 4 0 = 0 := by
      simp [nd_iface_send_na, ndL_send_icmp6, setCksum, nd_addr_is_multicast, sampleUnicastDst]
    rw [hfb]
    decide

/-- Claim C1, amended: in every NA emitted by nd_iface_send_na the wire flags
byte (byte 4 of the ICMPv6 message, the high byte of nd_na_flags_reserved)
has the O bit (0x20) always clear, the S bit (0x40) set exactly when the
destination IS multicast, and the R bit (0x80) set iff `router`. -/
theorem c1_na_flags (lladdr dst dst_ll tgt : List Nat) (router : Bool) :
    Nat.testBit ((nd_iface_send_na lladdr dst dst_ll tgt router).body.getD 4 0) 5 = false ∧
    Nat.testBit ((nd_iface_send_na lladdr dst dst_ll tgt router).body.getD 4 0) 6 =
      nd_addr_is_multicast dst ∧
    Nat.testBit ((nd_iface_send_na lladdr dst dst_ll tgt router).body.getD 4 0) 7 = router := by
  have hfb : (nd_iface_send_na lladdr dst dst_ll tgt router).body.getD 4 0 =
      (if nd_addr_is_multicast dst then 0x40 else 0) + (if router then 0x80 else 0) := by
    simp [nd_iface_send_na, ndL_send_icmp6, setCksum]
  rw [hfb]
  cases hm : nd_addr_is_multicast dst <;> cases router <;> simp <;> decide

/-- Claim C2, counterexample: for target 2001:db8::1 the emitted NS has
Ethernet destination 33:33:00:00:00:01 -- byte 2 is the target's byte 12,
which is 0 -- not the claimed 33:33:ff:00:00:01. -/
theorem c2_counterexample :
    (nd_iface_send_ns sampleMac sampleTgt).eth_dst = [0x33, 0x33, 0, 0, 0, 1] ∧
    (nd_iface_send_ns sampleMac sampleTgt).eth_dst ≠ [0x33, 0x33, 0xff, 0, 0, 1] := by
  decide

/-- Claim C2, amended: the NS emitted by nd_iface_send_ns has IPv6
destination ff02::1:ffXX:XXXX built from the low 24 bits of the target, but
its Ethernet destination is 33:33 followed by bytes 12-15 of the target
itself, which matches 33:33:ff:XX:XX:XX only when byte 12 of the target is
0xff. -/
theorem c2_ns_destinations (lladdr tgt : List Nat) :
    (nd_iface_send_ns lladdr tgt).ip6_dst =
      [0xff, 0x02, 0, 0, 0, 0, 0, 0, 0, 0, 0, 0x01, 0xff, tgt.getD 13 0,
        tgt.getD 14 0, tgt.getD 15 0] ∧
    (nd_iface_send_ns lladdr tgt).eth_dst =
      [0x33, 0x33, tgt.getD 12 0, tgt.getD 13 0, tgt.getD 14 0, tgt.getD 15 0] :=
  ⟨rfl, rfl⟩

/-- Claim C8: the IPv6 source address of every NS emitted by
nd_iface_send_ns is the modified EUI-64 link-local address of the interface
MAC: fe80 in bytes 0-1, zero bytes 2-7 (from the zero-initialized header),
and the MAC with ff:fe inserted and the universal/local bit flipped in bytes
8-15. -/
theorem c8_ns_source_is_eui64 (lladdr tgt : List Nat) :
    (nd_iface_send_ns lladdr tgt).ip6_src =
      [0xfe, 0x80, 0, 0, 0, 0, 0, 0, Nat.xor (lladdr.getD 0 0) 0x02,
        lladdr.getD 1 0, lladdr.getD 2 0, 0xff, 0xfe, lladdr.getD 3 0,
        lladdr.getD 4 0, lladdr.getD 5 0] :=
  rfl

/-- Claim C10: an incoming NS on an interface with no bound proxy is dropped
by ndL_handle_ns before any parsing: nd_proxy_handle_ns is never invoked, so
no session is created or refreshed and no frame is emitted, whatever the
frame contents. -/
theorem c10_no_proxy_drops (src dst body : List Nat) (len : Nat) :
    ndL_handle_ns false src dst body len = NsAction.drop :=
  rfl

/-- Claim C3: whenever the ICMPv6 message located by ndL_handle_msg fails the
checksum comparison against the value recomputed by
ndL_calculate_icmp6_checksum, the frame is dropped: neither ndL_handle_ns
nor ndL_handle_na is invoked, so no session or interface state changes and
no frame is emitted. -/
theorem c3_checksum_mismatch_drops (src dst : List Nat) (nxt plen : Nat)
    (buf : List Nat) (i : Nat)
    (hloc : ndL_locate_icmp6 nxt plen buf = some i)
    (hck : ndL_verify_checksum src dst buf (8 * i) (plen - i) = false) :
    ndL_handle_msg src dst nxt plen buf = Dispatch.drop := by
  simp [ndL_handle_msg, hloc, hck]

/-- Claim C3, witness: a minimal NS frame whose stored checksum 0 does not
match the recomputed value is dropped. -/
theorem c3_witness :
    ndL_handle_msg (List.replicate 16 0) (List.replicate 16 0) 58 8
      [135, 0, 0, 0, 0, 0, 0, 0] = Dispatch.drop :=
  c3_checksum_mismatch_drops (List.replicate 16 0) (List.replicate 16 0) 58 8
    [135, 0, 0, 0, 0, 0, 0, 0] 0 (by decide) (by decide)

/-- Claim C4: a frame emitted by ndL_send_icmp6 passes the receive-side
checksum comparison of ndL_handle_msg: verifying the stored checksum of the
output frame (ICMPv6 message at offset 0, length ip6_plen) against the
recomputation over the pseudo-header succeeds.  The body is required to hold
a full 8-byte ICMPv6 header and `size` to be the frame's actual size, as for
every caller in iface.c. -/
theorem c4_emitted_frame_checksum_verifies (lladdr hwaddr : List Nat)
    (msg : Msg) (size : Nat) (b0 b1 b2 b3 b4 b5 b6 b7 : Nat) (rest : List Nat)
    (hbody : msg.body = b0 :: b1 :: b2 :: b3 :: b4 :: b5 :: b6 :: b7 :: rest)
    (hsize : size = 62 + rest.length)
    (hlen : rest.length + 8 < 65536) :
    ndL_verify_checksum (ndL_send_icmp6 lladdr hwaddr msg size).ip6_src
      (ndL_send_icmp6 lladdr hwaddr msg size).ip6_dst
      (ndL_send_icmp6 lladdr hwaddr msg size).body 0
      (ndL_send_icmp6 lladdr hwaddr msg size).ip6_plen = true := by
  subst hsize
  unfold ndL_send_icmp6 ndL_verify_checksum ndL_calculate_icmp6_checksum
  rw [hbody]
  have e1 : 62 + rest.length - 54 = rest.length + 8 := by omega
  have e2 : rest.length + 8 - 8 = rest.length := by omega
  simp only [e1, e2, Nat.mod_eq_of_lt hlen, setCksum, zeroCksum, decode16]
  simp [e2, Nat.mod_eq_of_lt hlen]
  omega

/-- The NS message body for target 2001:db8::1 with the interface MAC as
source link-layer option, as built by nd_iface_send_ns. -/
def sampleNsBody : List Nat :=
  [135, 0, 0, 0, 0, 0, 0, 0] ++ sampleTgt ++ [1, 1] ++ sampleMac

/-- The caller-side frame for the sample NS before ndL_send_icmp6 fills the
headers. -/
def sampleNsMsg : Msg :=
  { eth_dst := List.replicate 6 0
    eth_src := List.replicate 6 0
    eth_type := 0
    ip6_flow := 0
    ip6_plen := 0
    ip6_nxt := 0
    ip6_hops := 0
    ip6_src := [0xfe, 0x80, 0, 0, 0, 0, 0, 0, 0, 3, 4, 0xff, 0xfe, 5, 6, 7]
    ip6_dst := [0xff, 0x02, 0, 0, 0, 0, 0, 0, 0, 0, 0, 0x01, 0xff, 0, 0, 1]
    body := sampleNsBody }

/-- Claim C4, witness: the concrete sample NS frame emitted through
ndL_send_icmp6 verifies. -/
theorem c4_witness :
    ndL_verify_checksum (ndL_send_icmp6 sampleMac sampleMac2 sampleNsMsg 86).ip6_src
      (ndL_send_icmp6 sampleMac sampleMac2 sampleNsMsg 86).ip6_dst
      (ndL_send_icmp6 sampleMac sampleMac2 sampleNsMsg 86).body 0
      (ndL_send_icmp6 sampleMac sampleMac2 sampleNsMsg 86).ip6_plen = true :=
  c4_emitted_frame_checksum_verifies sampleMac sampleMac2 sampleNsMsg 86
    135 0 0 0 0 0 0 0 (sampleTgt ++ [1, 1] ++ sampleMac) (by decide) (by decide)
    (by decide)

/-- The source address 2001:db8::2 of the sample solicitor (not
unspecified). -/
def sampleNsSrc : List Nat := sampleUnicastDst

/-- The solicited-node multicast destination of the sample NS. -/
def sampleNsDst : List Nat :=
  [0xff, 0x02, 0, 0, 0, 0, 0, 0, 0, 0, 0, 0x01, 0xff, 0, 0, 1]

/-- An incoming NS message for target 2001:db8::1 carrying one well-formed
source link-layer option (8 bytes). -/
def sampleInNs : List Nat :=
  [135, 0, 0, 0, 0, 0, 0, 0] ++ sampleTgt ++ [1, 1] ++ sampleMac2

/-- An incoming NS message carrying TWO source link-layer options (16 option
bytes in total). -/
def sampleInNs2 : List Nat :=
  sampleInNs ++ [1, 1, 2, 2, 2, 2, 2, 2]

/-- Claim C5, counterexample: an NS with a non-unspecified source whose body
is followed by sixteen option bytes -- two source link-layer options, not
exactly one -- is still forwarded to nd_proxy_handle_ns by ndL_handle_ns;
the claim says such a frame is dropped. -/
theorem c5_counterexample :
    ndL_handle_ns true sampleNsSrc sampleNsDst sampleInNs2 40 =
      NsAction.forward sampleNsSrc sampleNsDst sampleTgt (some sampleMac2) ∧
    40 - 24 ≠ 8 := by
  decide

/-- Claim C5, amended: ndL_handle_ns forwards an NS to the proxy exactly
when the interface has a proxy, the message holds a full neighbor-solicit
header, and either the source is unspecified (then no source link-layer
address is recorded) or at least 8 option bytes follow and the FIRST option
is a source link-layer option of type 1 and length 1 (then the MAC right
after it is recorded); bytes beyond the first option are not inspected, so a
frame with additional options is still forwarded.  Stated as a full
characterization (both directions) of every forward the function performs. -/
theorem c5_ns_forward_conditions (p : Bool) (src dst body : List Nat)
    (len : Nat) (s d t : List Nat) (ll : Option (List Nat)) :
    ndL_handle_ns p src dst body len = NsAction.forward s d t ll ↔
      p = true ∧ 24 ≤ len ∧ s = src ∧ d = dst ∧ t = (body.drop 8).take 16 ∧
      ((nd_addr_is_unspecified src = true ∧ ll = none) ∨
       (nd_addr_is_unspecified src = false ∧ 32 ≤ len ∧
         body.getD 24 0 = 1 ∧ body.getD 25 0 = 1 ∧
         ll = some ((body.drop 26).take 6))) := by
  constructor
  · intro h
    unfold ndL_handle_ns at h
    split_ifs at h with hp hl hu ho hopt
    · obtain ⟨h1, h2, h3, h4⟩ := NsAction.forward.inj h
      refine ⟨by simpa using hp, by omega, h1.symm, h2.symm, h3.symm, Or.inl ⟨hu, h4.symm⟩⟩
    · obtain ⟨h1, h2, h3, h4⟩ := NsAction.forward.inj h
      rw [not_or, not_ne_iff, not_ne_iff] at hopt
      refine ⟨by simpa using hp, by omega, h1.symm, h2.symm, h3.symm,
        Or.inr ⟨by simpa using hu, by omega, hopt.2, hopt.1, h4.symm⟩⟩
  · rintro ⟨hp, hl, hs, hd, ht, ⟨hu, hll⟩ | ⟨hu, hl2, h24, h25, hll⟩⟩ <;>
      subst hp <;> subst hs <;> subst hd <;> subst ht <;> subst hll <;>
      unfold ndL_handle_ns
    · rw [if_neg (by simp), if_neg (show ¬len < 24 by omega), if_pos hu]
    · rw [if_neg (by simp), if_neg (show ¬len < 24 by omega),
        if_neg (show ¬nd_addr_is_unspecified s = true by simp [hu]),
        if_neg (show ¬len - 24 < 8 by omega),
        if_neg (by rw [not_or, not_ne_iff, not_ne_iff]; exact ⟨h25, h24⟩)]

/-- Claim C5, witness: the sample well-formed NS (one source link-layer
option) satisfies the conditions, so the completeness direction of the
characterization yields the concrete forward the code performs. -/
theorem c5_witness :
    ndL_handle_ns true sampleNsSrc sampleNsDst sampleInNs 32 =
      NsAction.forward sampleNsSrc sampleNsDst sampleTgt (some sampleMac2) :=
  (c5_ns_forward_conditions true sampleNsSrc sampleNsDst sampleInNs 32
    sampleNsSrc sampleNsDst sampleTgt (some sampleMac2)).mpr
    ⟨rfl, by decide, rfl, rfl, by decide,
      Or.inr ⟨by decide, by decide, by decide, by decide, by decide⟩⟩

/-- A received frame whose IPv6 payload starts with one 8-byte hop-by-hop
option (next header ICMPv6) followed by a minimal 8-byte NS header whose
stored checksum 0x78bd is the correct checksum for that message; the
remaining 56 bytes model the zero-filled rest of the receive buffer beyond
ip6_plen = 16. -/
def sampleHbhFrame : List Nat :=
  [58, 0, 0, 0, 0, 0, 0, 0, 135, 0, 0x78, 0xbd, 0, 0, 0, 0] ++ List.replicate 56 0

/-- Claim C6: demonstration of the pointer-arithmetic slip at src/iface.c
line 204.  For the hop-by-hop frame above, the option chain ends at byte
offset i = 8 and the ICMPv6 message there is a valid NS -- the spec reading
(ndL_handle_msg_claimed) validates it and dispatches the NS handler with
offset 8 -- but the code computes the header address as
`(struct icmp6_hdr *)(msg + 1) + i`, reading at byte offset 8 * 8 = 64,
past the region its own bounds check `plen - i < 8` validated, where the
checksum comparison fails and the frame is dropped. -/
theorem c6_hbh_offset_bug :
    ndL_handle_msg (List.replicate 16 0) (List.replicate 16 0) 0 16
      sampleHbhFrame = Dispatch.drop ∧
    ndL_handle_msg_claimed (List.replicate 16 0) (List.replicate 16 0) 0 16
      sampleHbhFrame = Dispatch.ns 8 8 := by
  have hloc : ndL_locate_icmp6 0 16 sampleHbhFrame = some 8 := by
    rw [ndL_locate_icmp6, ndL_skip_hbh]
    decide
  constructor
  · rw [ndL_handle_msg, hloc]
    decide
  · rw [ndL_handle_msg_claimed, hloc]
    decide

/-- Reading back the checksum bytes stored by setCksum. -/
theorem setCksum_getD (c : Nat) (l : List Nat) (h : 4 ≤ l.length) :
    (setCksum c l).getD 2 0 = c / 256 ∧ (setCksum c l).getD 3 0 = c % 256 := by
  match l, h with
  | a :: b :: x :: y :: r, _ => simp [setCksum]

/-- Claim C7: ndL_send_icmp6 fills the IPv6 header and checksum regardless
of what the caller placed in those fields: version 6, traffic class 0, flow
label 0, payload length equal to the frame size minus the 54 header bytes,
hop limit 255, next header ICMPv6, Ethernet type IPv6, and the checksum
field of the ICMPv6 message set to the computed checksum. -/
theorem c7_send_fills_headers (lladdr hwaddr : List Nat) (msg : Msg)
    (size : Nat) (h2 : size - 54 < 65536) (h3 : 4 ≤ msg.body.length) :
    (ndL_send_icmp6 lladdr hwaddr msg size).ip6_flow / 2 ^ 28 = 6 ∧
    (ndL_send_icmp6 lladdr hwaddr msg size).ip6_flow / 2 ^ 20 % 2 ^ 8 = 0 ∧
    (ndL_send_icmp6 lladdr hwaddr msg size).ip6_flow % 2 ^ 20 = 0 ∧
    (ndL_send_icmp6 lladdr hwaddr msg size).ip6_plen = size - 54 ∧
    (ndL_send_icmp6 lladdr hwaddr msg size).ip6_hops = 255 ∧
    (ndL_send_icmp6 lladdr hwaddr msg size).ip6_nxt = 58 ∧
    (ndL_send_icmp6 lladdr hwaddr msg size).eth_type = 0x86dd ∧
    (ndL_send_icmp6 lladdr hwaddr msg size).body.getD 2 0 =
      ndL_calculate_icmp6_checksum msg.ip6_src msg.ip6_dst (size - 54)
        (msg.body.take 8) ((msg.body.drop 8).take (size - 54 - 8)) / 256 ∧
    (ndL_send_icmp6 lladdr hwaddr msg size).body.getD 3 0 =
      ndL_calculate_icmp6_checksum msg.ip6_src msg.ip6_dst (size - 54)
        (msg.body.take 8) ((msg.body.drop 8).take (size - 54 - 8)) % 256 := by
  simp only [ndL_send_icmp6]
  refine ⟨by norm_num, by norm_num, by norm_num, Nat.mod_eq_of_lt h2,
    trivial, trivial, trivial, (setCksum_getD _ _ h3).1, (setCksum_getD _ _ h3).2⟩

/-- Claim C7, witness: the sample NS frame of size 86 gets all header fields
filled. -/
theorem c7_witness :
    (ndL_send_icmp6 sampleMac sampleMac2 sampleNsMsg 86).ip6_flow / 2 ^ 28 = 6 ∧
    (ndL_send_icmp6 sampleMac sampleMac2 sampleNsMsg 86).ip6_flow / 2 ^ 20 % 2 ^ 8 = 0 ∧
    (ndL_send_icmp6 sampleMac sampleMac2 sampleNsMsg 86).ip6_flow % 2 ^ 20 = 0 ∧
    (ndL_send_icmp6 sampleMac sampleMac2 sampleNsMsg 86).ip6_plen = 86 - 54 ∧
    (ndL_send_icmp6 sampleMac sampleMac2 sampleNsMsg 86).ip6_hops = 255 ∧
    (ndL_send_icmp6 sampleMac sampleMac2 sampleNsMsg 86).ip6_nxt = 58 ∧
    (ndL_send_icmp6 sampleMac sampleMac2 sampleNsMsg 86).eth_type = 0x86dd ∧
    (ndL_send_icmp6 sampleMac sampleMac2 sampleNsMsg 86).body.getD 2 0 =
      ndL_calculate_icmp6_checksum sampleNsMsg.ip6_src sampleNsMsg.ip6_dst (86 - 54)
        (sampleNsMsg.body.take 8) ((sampleNsMsg.body.drop 8).take (86 - 54 - 8)) / 256 ∧
    (ndL_send_icmp6 sampleMac sampleMac2 sampleNsMsg 86).body.getD 3 0 =
      ndL_calculate_icmp6_checksum sampleNsMsg.ip6_src sampleNsMsg.ip6_dst (86 - 54)
        (sampleNsMsg.body.take 8) ((sampleNsMsg.body.drop 8).take (86 - 54 - 8)) % 256 :=
  c7_send_fills_headers sampleMac sampleMac2 sampleNsMsg 86 (by decide) (by decide)

/-- Claim C9: for any sequence of nd_iface_set_allmulti /
nd_iface_set_promisc calls on a freshly opened interface (saved flags at the
-1 sentinel) over any initial kernel flag state, each saved flag records the
kernel value only at the first touch, so the final nd_iface_close (last
reference, no-restore override inactive) restores ALLMULTI and PROMISC to
their values before the daemon first touched them. -/
theorem c9_flags_restored (ops : List FlagOp) (k0 : KernelFlags) :
    (nd_iface_close false 1 (ndL_run_flag_ops ops (freshIfaceFlags, k0))).2.2 = k0 := by
  have h0 : FlagsInvA k0 (freshIfaceFlags, k0) ∧ FlagsInvP k0 (freshIfaceFlags, k0) :=
    ⟨Or.inl ⟨rfl, rfl⟩, Or.inl ⟨rfl, rfl⟩⟩
  have h := flagsInv_run k0 ops _ h0
  exact close_restores k0 _ h.1 h.2
